import Mathlib

/-!
Verification of the conversational scheduling assistant backend
(`backend/services/calendar_service.py`, `backend/services/ai_agent.py`,
`backend/main.py`).

Modelling conventions:
* Naive datetimes are minutes since midnight of day 0, where days are
  counted from 0000-03-01 of the proleptic Gregorian calendar; a calendar
  date is its day number.  `daysFromCivil` is the standard civil-calendar
  day-count algorithm, so concrete dates such as 2024-06-03 are available
  as literals.
* Busy intervals are pairs of minute timestamps `(start, end)`.
* Calls into external services (the Google API client, the langchain
  executor, `datetime.fromisoformat` on arbitrary strings) are modelled as
  oracle fields of an environment record carrying the outcome of the call:
  `Except e α` distinguishes a raised exception from a normal return.
-/

namespace BookIt

/-- Day count since 0000-03-01 of the proleptic Gregorian calendar
(Hinnant civil-from-days, specialised to non-negative years). -/
def daysFromCivil (y m d : Nat) : Nat :=
  let y1 := if m ≤ 2 then y - 1 else y
  let era := y1 / 400
  let yoe := y1 % 400
  let mp := (m + 9) % 12
  let doy := (153 * mp + 2) / 5 + d - 1
  let doe := yoe * 365 + yoe / 4 - yoe / 100 + doy
  era * 146097 + doe

/-- Python `date.weekday()`: Monday = 0, ..., Sunday = 6. -/
def weekday (day : Nat) : Nat := (day + 2) % 7

/-- `TimeSlot` records produced by the availability engine
(`calendar_service.py`, the dicts with keys start_time/end_time/available). -/
structure TimeSlot where
  start_time : Nat
  end_time : Nat
  available : Bool
deriving DecidableEq, Repr

/-- Slot constructed at minute `s` with the requested duration:
`slot_end = slot_start + timedelta(minutes=duration_minutes)`. -/
def mkSlot (dur s : Nat) : TimeSlot := ⟨s, s + dur, true⟩

/-- The per-event conflict test of `get_availability`
(line 177: `slot_start < event_end and slot_end > event_start`). -/
def slotConflicts (slotStart slotEnd : Nat) (b : Nat × Nat) : Bool :=
  slotStart < b.2 && slotEnd > b.1

/-- The inner loop of `get_availability` (lines 165-179): a slot is
available when no busy interval conflicts with it. -/
def slotIsAvailable (slotStart slotEnd : Nat) (busy : List (Nat × Nat)) : Bool :=
  busy.all (fun b => !(slotConflicts slotStart slotEnd b))

/-- Dates iterated by `while current_date <= end_dt.date()`. -/
def dayRange (startDay endDay : Nat) : List Nat :=
  (List.range (endDay + 1 - startDay)).map (fun i => startDay + i)

/-- Candidate slot start minutes of one day: `for hour in range(9, 17)`. -/
def daySlotStarts (day : Nat) : List Nat :=
  (List.range 8).map (fun j => day * 1440 + (9 + j) * 60)

/-- Slots of one day that survive the conflict check, skipping weekends
(`if current_date.weekday() < 5`). -/
def businessHoursSlots (day dur : Nat) (busy : List (Nat × Nat)) : List TimeSlot :=
  if weekday day < 5 then
    ((daySlotStarts day).filter (fun s => slotIsAvailable s (s + dur) busy)).map (mkSlot dur)
  else []

/-- The full chronological list `available_slots` built by
`get_availability` before truncation (lines 153-188). -/
def availableSlotsAll (startDay endDay dur : Nat) (busy : List (Nat × Nat)) : List TimeSlot :=
  (dayRange startDay endDay).flatMap (fun d => businessHoursSlots d dur busy)

/-- `get_availability` on the real path (provider available, no error):
`return available_slots[:20]` (line 190). -/
def get_availability (startDay endDay dur : Nat) (busy : List (Nat × Nat)) : List TimeSlot :=
  (availableSlotsAll startDay endDay dur busy).take 20

/-- All candidate slot start minutes of the range (weekday days, hours
9..16), independent of the busy set. -/
def candidateStarts (startDay endDay : Nat) : List Nat :=
  (dayRange startDay endDay).flatMap
    (fun d => if weekday d < 5 then daySlotStarts d else [])

/-- Mock slots of one weekday: `for hour in [9, 11, 14, 16]` (line 207). -/
def mockDaySlots (day dur : Nat) : List TimeSlot :=
  [9, 11, 14, 16].map (fun h => mkSlot dur (day * 1440 + h * 60))

/-- The `while current_date <= end_dt.date() and len(available_slots) < 10`
loop of `_get_mock_availability` (lines 203-217), one step per date. -/
def mockLoop (dur : Nat) : List Nat → List TimeSlot → List TimeSlot
  | [], acc => acc
  | d :: rest, acc =>
    if acc.length < 10 then
      mockLoop dur rest (if weekday d < 5 then acc ++ mockDaySlots d dur else acc)
    else acc

/-- `_get_mock_availability` (lines 195-219): the loop above followed by
`return available_slots[:10]`. -/
def get_mock_availability (startDay endDay dur : Nat) : List TimeSlot :=
  (mockLoop dur (dayRange startDay endDay) []).take 10

/-- 2024-06-03, the Monday of the worked example. -/
def june3 : Nat := daysFromCivil 2024 6 3

/-- A Google Calendar event as returned by the API client. -/
structure CalendarEvent where
  id : String
  summary : String
  description : String
  start_time : String
  end_time : String
deriving DecidableEq, Repr

/-- `googleapiclient.errors.HttpError`, carrying its message. -/
structure HttpError where
  msg : String
deriving DecidableEq, Repr

/-- State and provider oracles of a `CalendarService` instance: the
`is_available` flag set by the constructor, the outcome of the pending
`events().insert(...).execute()` and `events().delete(...).execute()`
network calls, and the `datetime.now().timestamp()` reading used for mock
ids. -/
structure CalendarServiceState where
  is_available : Bool
  insertResult : Except HttpError CalendarEvent
  deleteResult : Except HttpError Unit
  now_ts : String
deriving Repr

/-- The mock event dict built by `create_event` when the provider is
unavailable (lines 226-233). -/
def mock_created_event (svc : CalendarServiceState)
    (title description start_time end_time : String) : CalendarEvent :=
  { id := "mock_event_" ++ svc.now_ts
    summary := title
    description := description
    start_time := start_time
    end_time := end_time }

/-- `CalendarService.create_event` (lines 221-263): mock result when the
provider is unavailable; otherwise the insert call, with `HttpError`
re-raised (`raise error`, line 263). -/
def create_event (svc : CalendarServiceState)
    (title description start_time end_time : String)
    (attendee_email : Option String) : Except HttpError CalendarEvent :=
  if svc.is_available = false then
    Except.ok (mock_created_event svc title description start_time end_time)
  else
    match svc.insertResult with
    | Except.ok ev => Except.ok ev
    | Except.error e => Except.error e

/-- `CalendarService.delete_event` (lines 265-279): `return True` when the
provider is unavailable; otherwise the delete call, with `HttpError`
caught and converted to `return False` (lines 277-279). -/
def delete_event (svc : CalendarServiceState) (event_id : String) :
    Except HttpError Bool :=
  if svc.is_available = false then
    Except.ok true
  else
    match svc.deleteResult with
    | Except.ok _ => Except.ok true
    | Except.error _ => Except.ok false

/-! ## Tool adapter layer (`ai_agent.py`, `_create_tools`) -/

/-- A slot dict as consumed by the tool layer: only its `start_time`
ISO string is read (line 126). -/
structure ApiSlot where
  start_time : String
deriving DecidableEq, Repr

/-- Environment of one tool invocation: `datetime.now()` date strings for
the fallback range, the `calendar_service.is_available` flag, and oracles
for every call that can raise — `get_availability` / `get_events` /
`create_event` on the service and `datetime.fromisoformat` + `strftime`
formatting of timestamps.  The error of an oracle is `str(e)` of the
exception it raised. -/
structure ToolEnv where
  today : String
  future : String
  calendar_is_available : Bool
  get_availability_res : String → String → Except String (List ApiSlot)
  get_events_res : String → String → Except String (List CalendarEvent)
  create_event_res : String → String → String → String → Option String →
    Except String CalendarEvent
  parse_iso : String → Except String Unit
  format_start : String → Except String String

/-- Python whitespace stripped by `str.strip()`. -/
def isPySpace (c : Char) : Bool :=
  c = ' ' || c = '\t' || c = '\n' || c = '\r'

def dropPySpace : List Char → List Char
  | [] => []
  | c :: rest => if isPySpace c then dropPySpace rest else c :: rest

/-- Python `str.strip()` (structural recursion, so proofs can evaluate
it). -/
def pyStrip (s : String) : String :=
  String.mk ((dropPySpace (dropPySpace s.data).reverse).reverse)

def pySplitCharAux (sep : Char) : List Char → List Char → List String
  | [], acc => [String.mk acc.reverse]
  | c :: rest, acc =>
    if c = sep then String.mk acc.reverse :: pySplitCharAux sep rest []
    else pySplitCharAux sep rest (c :: acc)

/-- Python `str.split(sep)` for a one-character separator. -/
def pySplitChar (sep : Char) (s : String) : List String :=
  pySplitCharAux sep s.data []

/-- Python `c in s` for a single character. -/
def pyContainsChar (s : String) (c : Char) : Bool :=
  s.data.any (fun x => x = c)

/-- `parse_date_range` (lines 99-111): strip quotes, split on `"to"`;
any failure (no `"to"`, or an unpacking error from more than one `"to"`)
falls back to `[today, today + 7 days]`. -/
def parse_date_range (env : ToolEnv) (input_str : String) : String × String :=
  let cleaned := (((pyStrip input_str).replace "\"" "").replace "\x27" "")
  let parts := cleaned.splitOn "to"
  if parts.length = 2 then
    (pyStrip (parts.getD 0 ""), pyStrip (parts.getD 1 ""))
  else
    (env.today, env.future)

/-- Body of `check_availability_tool` (the `try` block, lines 114-129). -/
def check_availability_body (env : ToolEnv) (date_range : String) :
    Except String String := do
  let r := parse_date_range env date_range
  let availability ← env.get_availability_res r.1 r.2
  if availability.length = 0 then
    Except.ok "No available slots found for the specified date range."
  else do
    let calendar_note :=
      if env.calendar_is_available then ""
      else "\n\n📝 Note: Showing demo availability (Google Calendar not connected)"
    let formatted ← (availability.take 10).mapM (fun slot => env.format_start slot.start_time)
    let slots_text := (formatted.enumFrom 1).foldl
      (fun acc p => acc ++ toString p.1 ++ ". " ++ p.2 ++ "\n")
      "Available time slots:\n"
    Except.ok (slots_text ++ calendar_note)

/-- `check_availability_tool` (lines 113-131): the body with every
exception converted to an error string. -/
def check_availability_tool (env : ToolEnv) (date_range : String) : String :=
  match check_availability_body env date_range with
  | Except.ok s => s
  | Except.error e => "Error checking availability: " ++ e

/-- Body of `book_appointment_tool` (the `try` block, lines 134-162). -/
def book_appointment_body (env : ToolEnv) (booking_details : String) :
    Except String String := do
  let parts := pySplitChar '|' booking_details
  if parts.length < 4 then
    Except.ok "Invalid booking format. Please provide: title|description|start_time|end_time|email"
  else do
    let title := pyStrip (parts.getD 0 "")
    let description := pyStrip (parts.getD 1 "")
    let st0 := pyStrip (parts.getD 2 "")
    let et0 := pyStrip (parts.getD 3 "")
    let email := if parts.length > 4 then some (pyStrip (parts.getD 4 "")) else none
    let start_time := if pyContainsChar st0 'T' then st0 else st0 ++ "T00:00:00"
    let end_time := if pyContainsChar et0 'T' then et0 else et0 ++ "T00:00:00"
    let _ ← env.parse_iso start_time
    let _ ← env.parse_iso end_time
    let event ← env.create_event_res title description start_time end_time email
    let calendar_note :=
      if env.calendar_is_available then ""
      else "\n\n📝 Note: This is a demo booking (Google Calendar not connected)"
    Except.ok ("✅ Appointment booked successfully! Event ID: " ++ event.id ++ calendar_note)

/-- `book_appointment_tool` (lines 133-164). -/
def book_appointment_tool (env : ToolEnv) (booking_details : String) : String :=
  match book_appointment_body env booking_details with
  | Except.ok s => s
  | Except.error e => "Error booking appointment: " ++ e

/-- Body of `get_existing_events_tool` (the `try` block, lines 167-181). -/
def get_existing_events_body (env : ToolEnv) (date_range : String) :
    Except String String := do
  let r := parse_date_range env date_range
  let events ← env.get_events_res r.1 r.2
  if events.length = 0 then
    let calendar_note :=
      if env.calendar_is_available then ""
      else "\n\n📝 Note: No events shown (Google Calendar not connected)"
    Except.ok ("No existing events found for the specified date range." ++ calendar_note)
  else do
    let formatted ← events.mapM
      (fun ev => do
        let t ← env.format_start ev.start_time
        Except.ok ("• " ++ ev.summary ++ " - " ++ t ++ "\n"))
    Except.ok (formatted.foldl (fun acc line => acc ++ line) "Existing events:\n")

/-- `get_existing_events_tool` (lines 166-183). -/
def get_existing_events_tool (env : ToolEnv) (date_range : String) : String :=
  match get_existing_events_body env date_range with
  | Except.ok s => s
  | Except.error e => "Error getting events: " ++ e

/-! ## Agent loop (`ai_agent.py`, `_create_agent` / `process_message`) -/

/-- One parsed model completion of the ReAct loop: either an
`Action`/`Action Input` pair or a `Final Answer`. -/
inductive ModelOutput where
  | toolCall (action : String) (actionInput : String)
  | finalAnswer (answer : String)
deriving DecidableEq, Repr

/-- Modelled from the spec: the iterative executor loop itself lives in
the langchain library (`AgentExecutor`), not in this repository; only its
configuration (`max_iterations=5`, `early_stopping_method="force"`, lines
240-247) is source.  Per spec §4.3 the loop runs THINK → ACT → OBSERVE,
appending each observation to the scratchpad, for at most `fuel`
iterations; reaching the cap without a final answer force-stops with the
executor's fixed stop message.  Returns (iterations used, output
string). -/
def agentLoopGo (model : List String → ModelOutput) (tools : String → String → String) :
    Nat → List String → Nat → Nat × String
  | 0, _, used => (used, "Agent stopped due to iteration limit or time limit.")
  | fuel + 1, scratchpad, used =>
    match model scratchpad with
    | ModelOutput.finalAnswer a => (used + 1, a)
    | ModelOutput.toolCall act inp =>
      agentLoopGo model tools fuel (scratchpad ++ [tools act inp]) (used + 1)

/-- Modelled from the spec: one executor invocation as configured by
`_create_agent`, starting from an empty scratchpad with the iteration
budget `max_iterations=5`. -/
def agentLoop (model : List String → ModelOutput) (tools : String → String → String) :
    Nat × String :=
  agentLoopGo model tools 5 [] 0

/-- A transcript turn of a `ChatMessageHistory`. -/
inductive Role where
  | user
  | assistant
deriving DecidableEq, Repr

structure Turn where
  role : Role
  text : String
deriving DecidableEq, Repr

/-- The substring test `needle in haystack` of Python. -/
def strContainsSub (hay needle : String) : Bool :=
  decide (needle.toList <:+: hay.toList)

/-- The tailored error message built by the `except` block of
`process_message` (lines 281-301); `e` is `str(e)`. -/
def process_error_message (e : String) : String :=
  let base := "I apologize, but I encountered an error: " ++ e
  if strContainsSub e.toLower "API key" || strContainsSub e.toLower "invalid_api_key" then
    "🔑 API Key Error! Please check your .env file and restart the backend."
  else if strContainsSub e.toLower "quota" then
    base ++ "\n\n💰 This looks like a quota/billing issue. Consider switching to Groq or Google Gemini."
  else if strContainsSub e.toLower "rate limit" then
    base ++ "\n\n⏱️ Rate limit exceeded. Please wait a moment and try again."
  else base

/-- `process_message` (lines 249-301), viewed on one session transcript.
`ainvoke` is the oracle outcome of `await self.agent.ainvoke(...)`:
an exception (`Except.error` with `str(e)`), or a response dict that has
an `"output"` key (`Except.ok (some out)`) or lacks one
(`Except.ok none`).  Returns the updated transcript and the string handed
back to the caller. -/
def process_message (ainvoke : Except String (Option String))
    (history : List Turn) (message : String) : List Turn × String :=
  match ainvoke with
  | Except.error e => (history, process_error_message e)
  | Except.ok resp =>
    let history1 := history ++ [⟨Role.user, message⟩]
    match resp with
    | some out => (history1 ++ [⟨Role.assistant, out⟩], out)
    | none => (history1, "⚠️ Unexpected response format from LLM agent.")

/-- `session_id = f"session_{...}"` fallback of `process_message`
(lines 251-252); Python `if not session_id` also treats the empty string
as missing. -/
def effective_session_id (now_ts : String) : Option String → String
  | none => "session_" ++ now_ts
  | some s => if s = "" then "session_" ++ now_ts else s

/-! ## HTTP layer (`main.py`) -/

/-- Request body of `POST /chat` (`booking_models.ChatMessage`); the
optional `context` dict is opaque to the endpoint. -/
structure ChatMessage where
  message : String
  session_id : Option String
  context : Option String
deriving DecidableEq, Repr

/-- JSON body returned by `chat_endpoint`; `session_id = none` is
serialised as `null`. -/
structure ChatResponse where
  response : String
  session_id : Option String
deriving DecidableEq, Repr

/-- `chat_endpoint` (lines 34-45) on the non-exception path:
`return ⟨response, message.session_id⟩` — it echoes the request's
`session_id` field, not the identifier `process_message` generated. -/
def chat_endpoint (agent_response : String) (msg : ChatMessage) : ChatResponse :=
  { response := agent_response, session_id := msg.session_id }

/-! ## Concrete fixtures used by witnesses and counterexamples -/

/-- A service whose constructor failed to authenticate (demo mode). -/
def svcDown : CalendarServiceState :=
  ⟨false, Except.error ⟨"net"⟩, Except.error ⟨"net"⟩, "1717000000.0"⟩

/-- A service that authenticated but whose pending provider calls raise
`HttpError`. -/
def svcHardFail : CalendarServiceState :=
  ⟨true, Except.error ⟨"insert failed"⟩, Except.error ⟨"delete failed"⟩, "1717000000.0"⟩

/-- A tool environment in which every external call raises. -/
def envFail : ToolEnv :=
  ⟨"2024-06-03", "2024-06-10", true,
   fun _ _ => Except.error "boom",
   fun _ _ => Except.error "boom",
   fun _ _ _ _ _ => Except.error "boom",
   fun _ => Except.error "bad iso",
   fun _ => Except.error "bad ts"⟩

/-- A model that keeps calling tools and never emits a final answer. -/
def neverFinalModel : List String → ModelOutput :=
  fun _ => ModelOutput.toolCall "check_availability" "2024-06-03 to 2024-06-10"

def constTools : String → String → String := fun _ _ => "observation"

/-! ## Helper lemmas -/

theorem mem_dayRange {s e d : Nat} : d ∈ dayRange s e ↔ s ≤ d ∧ d ≤ e := by
  simp only [dayRange, List.mem_map, List.mem_range]
  constructor
  · rintro ⟨i, hi, rfl⟩
    omega
  · rintro ⟨h1, h2⟩
    exact ⟨d - s, by omega, by omega⟩

theorem slotIsAvailable_single (s e b0 b1 : Nat) :
    slotIsAvailable s e [(b0, b1)] = true ↔ (b1 ≤ s ∨ e ≤ b0) := by
  simp [slotIsAvailable, slotConflicts]

theorem slotIsAvailable_single_false (s e b0 b1 : Nat) :
    slotIsAvailable s e [(b0, b1)] = false ↔ (s < b1 ∧ b0 < e) := by
  simp [slotIsAvailable, slotConflicts]

theorem flatMap_business_filter (dur : Nat) (busy : List (Nat × Nat)) (days : List Nat) :
    days.flatMap (fun d => businessHoursSlots d dur busy) =
      ((days.flatMap (fun d => if weekday d < 5 then daySlotStarts d else [])).filter
          (fun s => slotIsAvailable s (s + dur) busy)).map (mkSlot dur) := by
  induction days with
  | nil => rfl
  | cons d rest ih =>
    simp only [List.flatMap_cons, List.filter_append, List.map_append, ih]
    congr 1
    by_cases h : weekday d < 5
    · simp [businessHoursSlots, h]
    · simp [businessHoursSlots, h]

end BookIt

namespace BookIt

/-- C1: in `get_availability` a candidate slot `[s, s+duration)` is kept
exactly when the half-open overlap test `s < busyEnd ∧ s + duration >
busyStart` fails for every busy interval; slots touching a busy interval
only at an endpoint stay available, while containing, left-overlapping,
right-overlapping and exactly matching busy intervals all mark the slot
unavailable. -/
theorem slot_overlap_characterization :
    (∀ (startDay endDay dur : Nat) (busy : List (Nat × Nat)),
        availableSlotsAll startDay endDay dur busy =
          ((candidateStarts startDay endDay).filter
              (fun s => slotIsAvailable s (s + dur) busy)).map (mkSlot dur)) ∧
    (∀ (s dur : Nat) (busy : List (Nat × Nat)),
        slotIsAvailable s (s + dur) busy = true ↔
          ∀ b ∈ busy, ¬(s < b.2 ∧ s + dur > b.1)) ∧
    (∀ s dur b0 b1 : Nat, s + dur ≤ b0 ∨ b1 ≤ s →
        slotIsAvailable s (s + dur) [(b0, b1)] = true) ∧
    (∀ s dur b0 b1 : Nat, 0 < dur → b0 ≤ s → s < b1 →
        slotIsAvailable s (s + dur) [(b0, b1)] = false) ∧
    (∀ s dur b0 b1 : Nat, s ≤ b0 → b0 < b1 → b0 < s + dur →
        slotIsAvailable s (s + dur) [(b0, b1)] = false) ∧
    (∀ s dur : Nat, 0 < dur →
        slotIsAvailable s (s + dur) [(s, s + dur)] = false) := by
  refine ⟨?_, ?_, ?_, ?_, ?_, ?_⟩
  · intro sD eD dur busy
    exact flatMap_business_filter dur busy (dayRange sD eD)
  · intro s dur busy
    simp only [slotIsAvailable, List.all_eq_true, slotConflicts]
    constructor
    · intro h b hb hc
      have hx := h b hb
      simp at hx
      omega
    · intro h b hb
      have hx := h b hb
      simp
      omega
  · intro s dur b0 b1 h
    exact (slotIsAvailable_single s (s + dur) b0 b1).mpr (by omega)
  · intro s dur b0 b1 h1 h2 h3
    exact (slotIsAvailable_single_false s (s + dur) b0 b1).mpr (by omega)
  · intro s dur b0 b1 h1 h2 h3
    exact (slotIsAvailable_single_false s (s + dur) b0 b1).mpr (by omega)
  · intro s dur h
    exact (slotIsAvailable_single_false s (s + dur) s (s + dur)).mpr (by omega)

theorem slot_overlap_characterization_witness :
    slotIsAvailable 540 (540 + 60) [(600, 690)] = true ∧
    slotIsAvailable 540 (540 + 60) [(500, 700)] = false ∧
    slotIsAvailable 540 (540 + 60) [(570, 630)] = false ∧
    slotIsAvailable 540 (540 + 60) [(540, 540 + 60)] = false :=
  ⟨slot_overlap_characterization.2.2.1 540 60 600 690 (Or.inl (by decide)),
   slot_overlap_characterization.2.2.2.1 540 60 500 700 (by decide) (by decide) (by decide),
   slot_overlap_characterization.2.2.2.2.1 540 60 570 630 (by decide) (by decide) (by decide),
   slot_overlap_characterization.2.2.2.2.2 540 60 (by decide)⟩

/-- C2: on Monday 2024-06-03 with duration 60 and no busy intervals the
real availability computation yields exactly the 8 slots starting at
hours 9..16; adding the busy interval 09:30-10:30 removes the slots
starting at 9 and 10 and keeps the one starting at 11. -/
theorem june3_example_availability :
    weekday june3 = 0 ∧
    get_availability june3 june3 60 [] =
      [mkSlot 60 (june3 * 1440 + 9 * 60), mkSlot 60 (june3 * 1440 + 10 * 60),
       mkSlot 60 (june3 * 1440 + 11 * 60), mkSlot 60 (june3 * 1440 + 12 * 60),
       mkSlot 60 (june3 * 1440 + 13 * 60), mkSlot 60 (june3 * 1440 + 14 * 60),
       mkSlot 60 (june3 * 1440 + 15 * 60), mkSlot 60 (june3 * 1440 + 16 * 60)] ∧
    get_availability june3 june3 60
        [(june3 * 1440 + 9 * 60 + 30, june3 * 1440 + 10 * 60 + 30)] =
      [mkSlot 60 (june3 * 1440 + 11 * 60), mkSlot 60 (june3 * 1440 + 12 * 60),
       mkSlot 60 (june3 * 1440 + 13 * 60), mkSlot 60 (june3 * 1440 + 14 * 60),
       mkSlot 60 (june3 * 1440 + 15 * 60), mkSlot 60 (june3 * 1440 + 16 * 60)] := by
  refine ⟨by decide, by decide, by decide⟩

theorem mockLoop_mem_shape (dur : Nat) (days : List Nat) :
    ∀ (acc : List TimeSlot) (slot : TimeSlot),
      slot ∈ mockLoop dur days acc →
      slot ∈ acc ∨ ∃ d, d ∈ days ∧ weekday d < 5 ∧ slot ∈ mockDaySlots d dur := by
  induction days with
  | nil =>
    intro acc slot h
    exact Or.inl h
  | cons d rest ih =>
    intro acc slot h
    simp only [mockLoop] at h
    by_cases hlen : acc.length < 10
    · rw [if_pos hlen] at h
      rcases ih _ slot h with hacc | ⟨d1, hd1, hw1, hm1⟩
      · by_cases hw : weekday d < 5
        · rw [if_pos hw] at hacc
          rcases List.mem_append.mp hacc with h1 | h2
          · exact Or.inl h1
          · exact Or.inr ⟨d, List.mem_cons_self d rest, hw, h2⟩
        · rw [if_neg hw] at hacc
          exact Or.inl hacc
      · exact Or.inr ⟨d1, List.mem_cons_of_mem d hd1, hw1, hm1⟩
    · rw [if_neg hlen] at h
      exact Or.inl h

/-- C6: the mock availability computation is a (pure, deterministic)
function of its three arguments that returns at most 10 slots, each of
which starts at one of the fixed hours 9, 11, 14, 16 of a weekday inside
the requested range and spans the requested duration. -/
theorem mock_availability_shape :
    ∀ startDay endDay dur : Nat,
      (get_mock_availability startDay endDay dur).length ≤ 10 ∧
      ∀ slot ∈ get_mock_availability startDay endDay dur,
        ∃ day h : Nat, startDay ≤ day ∧ day ≤ endDay ∧ weekday day < 5 ∧
          (h = 9 ∨ h = 11 ∨ h = 14 ∨ h = 16) ∧
          slot = mkSlot dur (day * 1440 + h * 60) := by
  intro s e dur
  constructor
  · exact List.length_take_le 10 _
  · intro slot hslot
    have hfull : slot ∈ mockLoop dur (dayRange s e) [] :=
      List.take_subset 10 _ hslot
    rcases mockLoop_mem_shape dur (dayRange s e) [] slot hfull with habs | ⟨d, hd, hw, hm⟩
    · exact absurd habs (List.not_mem_nil slot)
    · rcases mem_dayRange.mp hd with ⟨h1, h2⟩
      simp only [mockDaySlots, List.mem_map] at hm
      rcases hm with ⟨h, hh, rfl⟩
      refine ⟨d, h, h1, h2, hw, ?_, rfl⟩
      simpa using hh

theorem mock_availability_shape_witness :
    (get_mock_availability june3 june3 60).length ≤ 10 ∧
    (∃ day h : Nat, june3 ≤ day ∧ day ≤ june3 ∧ weekday day < 5 ∧
      (h = 9 ∨ h = 11 ∨ h = 14 ∨ h = 16) ∧
      mkSlot 60 (june3 * 1440 + 9 * 60) = mkSlot 60 (day * 1440 + h * 60)) :=
  ⟨(mock_availability_shape june3 june3 60).1,
   (mock_availability_shape june3 june3 60).2
     (mkSlot 60 (june3 * 1440 + 9 * 60)) (by decide)⟩

theorem businessHoursSlots_start_bounds {day dur : Nat} {busy : List (Nat × Nat)}
    {slot : TimeSlot} (h : slot ∈ businessHoursSlots day dur busy) :
    day * 1440 + 540 ≤ slot.start_time ∧ slot.start_time ≤ day * 1440 + 960 := by
  unfold businessHoursSlots at h
  by_cases hw : weekday day < 5
  · rw [if_pos hw] at h
    rcases List.mem_map.mp h with ⟨s, hs, rfl⟩
    have hs1 := (List.mem_filter.mp hs).1
    simp only [daySlotStarts, List.mem_map, List.mem_range] at hs1
    rcases hs1 with ⟨j, hj, rfl⟩
    simp only [mkSlot]
    omega
  · rw [if_neg hw] at h
    exact absurd h (List.not_mem_nil slot)

theorem businessHoursSlots_pairwise (day dur : Nat) (busy : List (Nat × Nat)) :
    List.Pairwise (fun a b : TimeSlot => a.start_time < b.start_time)
      (businessHoursSlots day dur busy) := by
  unfold businessHoursSlots
  by_cases hw : weekday day < 5
  · rw [if_pos hw, List.pairwise_map]
    apply List.Pairwise.filter
    simp only [daySlotStarts, List.pairwise_map, mkSlot]
    exact (List.pairwise_lt_range 8).imp (by intro a b hab; omega)
  · rw [if_neg hw]
    exact List.Pairwise.nil

theorem pairwise_flatMap_business (dur : Nat) (busy : List (Nat × Nat)) :
    ∀ days : List Nat, List.Pairwise (fun a b : Nat => a < b) days →
      List.Pairwise (fun a b : TimeSlot => a.start_time < b.start_time)
        (days.flatMap (fun d => businessHoursSlots d dur busy)) := by
  intro days
  induction days with
  | nil =>
    intro _
    exact List.Pairwise.nil
  | cons d rest ih =>
    intro hp
    rcases List.pairwise_cons.mp hp with ⟨hd, hrest⟩
    rw [List.flatMap_cons, List.pairwise_append]
    refine ⟨businessHoursSlots_pairwise d dur busy, ih hrest, ?_⟩
    intro a ha b hb
    rcases List.mem_flatMap.mp hb with ⟨d2, hd2, hb2⟩
    have h1 := (businessHoursSlots_start_bounds ha).2
    have h2 := (businessHoursSlots_start_bounds hb2).1
    have h3 : d < d2 := hd d2 hd2
    omega

theorem dayRange_pairwise (s e : Nat) :
    List.Pairwise (fun a b : Nat => a < b) (dayRange s e) := by
  rw [dayRange, List.pairwise_map]
  exact (List.pairwise_lt_range _).imp (by intro a b hab; omega)

theorem mem_availableSlotsAll {startDay endDay dur : Nat} {busy : List (Nat × Nat)}
    {slot : TimeSlot} :
    slot ∈ availableSlotsAll startDay endDay dur busy ↔
      ∃ day h : Nat, startDay ≤ day ∧ day ≤ endDay ∧ weekday day < 5 ∧
        9 ≤ h ∧ h < 17 ∧
        slotIsAvailable (day * 1440 + h * 60) (day * 1440 + h * 60 + dur) busy = true ∧
        slot = mkSlot dur (day * 1440 + h * 60) := by
  unfold availableSlotsAll
  rw [List.mem_flatMap]
  constructor
  · rintro ⟨d, hd, hslot⟩
    rcases mem_dayRange.mp hd with ⟨h1, h2⟩
    unfold businessHoursSlots at hslot
    by_cases hw : weekday d < 5
    · rw [if_pos hw] at hslot
      rcases List.mem_map.mp hslot with ⟨st, hst, rfl⟩
      rcases List.mem_filter.mp hst with ⟨hst1, hst2⟩
      simp only [daySlotStarts, List.mem_map, List.mem_range] at hst1
      rcases hst1 with ⟨j, hj, rfl⟩
      exact ⟨d, 9 + j, h1, h2, hw, by omega, by omega, hst2, rfl⟩
    · rw [if_neg hw] at hslot
      exact absurd hslot (List.not_mem_nil slot)
  · rintro ⟨day, h, h1, h2, hw, h9, h17, hav, rfl⟩
    refine ⟨day, mem_dayRange.mpr ⟨h1, h2⟩, ?_⟩
    unfold businessHoursSlots
    rw [if_pos hw]
    apply List.mem_map.mpr
    refine ⟨day * 1440 + h * 60, List.mem_filter.mpr ⟨?_, hav⟩, rfl⟩
    simp only [daySlotStarts, List.mem_map, List.mem_range]
    exact ⟨h - 9, by omega, by omega⟩

/-- C7: the real availability computation returns at most 20 slots, namely
the 20-element prefix of the full chronologically sorted list of available
slots of the range (characterised by the membership equivalence). -/
theorem availability_truncated_to_first_20 :
    ∀ (startDay endDay dur : Nat) (busy : List (Nat × Nat)),
      (get_availability startDay endDay dur busy).length ≤ 20 ∧
      get_availability startDay endDay dur busy =
        (availableSlotsAll startDay endDay dur busy).take 20 ∧
      List.Pairwise (fun a b : TimeSlot => a.start_time < b.start_time)
        (availableSlotsAll startDay endDay dur busy) ∧
      (∀ slot : TimeSlot, slot ∈ availableSlotsAll startDay endDay dur busy ↔
        ∃ day h : Nat, startDay ≤ day ∧ day ≤ endDay ∧ weekday day < 5 ∧
          9 ≤ h ∧ h < 17 ∧
          slotIsAvailable (day * 1440 + h * 60) (day * 1440 + h * 60 + dur) busy = true ∧
          slot = mkSlot dur (day * 1440 + h * 60)) := by
  intro s e dur busy
  exact ⟨List.length_take_le 20 _, rfl,
    pairwise_flatMap_business dur busy (dayRange s e) (dayRange_pairwise s e),
    fun slot => mem_availableSlotsAll⟩

theorem availability_truncated_to_first_20_witness :
    (get_availability june3 june3 60 []).length ≤ 20 ∧
    mkSlot 60 (june3 * 1440 + 9 * 60) ∈ availableSlotsAll june3 june3 60 [] :=
  ⟨(availability_truncated_to_first_20 june3 june3 60 []).1,
   ((availability_truncated_to_first_20 june3 june3 60 []).2.2.2
       (mkSlot 60 (june3 * 1440 + 9 * 60))).mpr
     ⟨june3, 9, Nat.le_refl june3, Nat.le_refl june3, by decide, by decide, by decide,
      by decide, rfl⟩⟩

/-- C3: each tool converts a body exception into an error-prefixed string
instead of raising (the tools are total string-to-string functions),
passes a normal body result through unchanged, and answers fewer than 4
pipe-delimited booking fields with the invalid-format message. -/
theorem tools_never_throw :
    (∀ (env : ToolEnv) (input e : String),
        check_availability_body env input = Except.error e →
        check_availability_tool env input = "Error checking availability: " ++ e) ∧
    (∀ (env : ToolEnv) (input e : String),
        book_appointment_body env input = Except.error e →
        book_appointment_tool env input = "Error booking appointment: " ++ e) ∧
    (∀ (env : ToolEnv) (input e : String),
        get_existing_events_body env input = Except.error e →
        get_existing_events_tool env input = "Error getting events: " ++ e) ∧
    (∀ (env : ToolEnv) (input r : String),
        check_availability_body env input = Except.ok r →
        check_availability_tool env input = r) ∧
    (∀ (env : ToolEnv) (input r : String),
        book_appointment_body env input = Except.ok r →
        book_appointment_tool env input = r) ∧
    (∀ (env : ToolEnv) (input r : String),
        get_existing_events_body env input = Except.ok r →
        get_existing_events_tool env input = r) ∧
    (∀ env : ToolEnv,
        book_appointment_tool env "OnlyTitle" =
          "Invalid booking format. Please provide: title|description|start_time|end_time|email") := by
  refine ⟨?_, ?_, ?_, ?_, ?_, ?_, ?_⟩
  · intro env input e h
    simp [check_availability_tool, h]
  · intro env input e h
    simp [book_appointment_tool, h]
  · intro env input e h
    simp [get_existing_events_tool, h]
  · intro env input r h
    simp [check_availability_tool, h]
  · intro env input r h
    simp [book_appointment_tool, h]
  · intro env input r h
    simp [get_existing_events_tool, h]
  · intro env
    rfl

theorem tools_never_throw_witness :
    check_availability_tool envFail "next week" = "Error checking availability: boom" ∧
    book_appointment_tool envFail "a|b|c|d" = "Error booking appointment: bad iso" ∧
    get_existing_events_tool envFail "next week" = "Error getting events: boom" ∧
    book_appointment_tool envFail "OnlyTitle" =
      "Invalid booking format. Please provide: title|description|start_time|end_time|email" :=
  ⟨tools_never_throw.1 envFail "next week" "boom" rfl,
   tools_never_throw.2.1 envFail "a|b|c|d" "bad iso" rfl,
   tools_never_throw.2.2.1 envFail "next week" "boom" rfl,
   tools_never_throw.2.2.2.2.2.2 envFail⟩

/-- C4 counterexample: when the agent response lacks an `"output"` key —
a failure path in which only an error string is returned — the user
message has already been committed, so the transcript grows by one turn,
not zero as the claim states. -/
theorem process_message_missing_output_commits :
    (process_message (Except.ok none) [] "hi").1 = [⟨Role.user, "hi"⟩] ∧
    (process_message (Except.ok none) [] "hi").1.length = 1 ∧
    (process_message (Except.ok none) [] "hi").2 =
      "⚠️ Unexpected response format from LLM agent." :=
  ⟨rfl, rfl, rfl⟩

/-- C4 amended: a successful invocation (response with an output key)
appends exactly the user and assistant turns and returns the output; an
exception appends nothing and returns the tailored error message; a
response without an output key appends exactly one turn — the user
message — and returns an error string. -/
theorem process_message_transcript_policy :
    ∀ (history : List Turn) (message : String),
      (∀ out : String,
        (process_message (Except.ok (some out)) history message).1 =
          history ++ [⟨Role.user, message⟩, ⟨Role.assistant, out⟩] ∧
        (process_message (Except.ok (some out)) history message).2 = out) ∧
      (∀ e : String,
        (process_message (Except.error e) history message).1 = history ∧
        (process_message (Except.error e) history message).2 = process_error_message e) ∧
      ((process_message (Except.ok none) history message).1 =
        history ++ [⟨Role.user, message⟩]) := by
  intro hist msg
  refine ⟨fun out => ⟨?_, rfl⟩, fun e => ⟨rfl, rfl⟩, rfl⟩
  simp [process_message]

/-- C5 counterexample: with the provider available and the pending delete
call raising `HttpError`, `delete_event` catches the error and returns
`False` — it does not re-raise, so the claim fails for `delete_event`. -/
theorem delete_event_does_not_reraise :
    svcHardFail.is_available = true ∧
    svcHardFail.deleteResult = Except.error ⟨"delete failed"⟩ ∧
    delete_event svcHardFail "evt1" = Except.ok false :=
  ⟨rfl, rfl, rfl⟩

/-- C5 amended: after the provider reported itself available,
`create_event` re-raises an `HttpError` from the insert call, while
`delete_event` catches an `HttpError` from the delete call and returns
`False`; neither masks the failure as a mock success. -/
theorem create_reraises_delete_swallows :
    ∀ (svc : CalendarServiceState) (e : HttpError)
      (title description st et : String) (email : Option String) (event_id : String),
      svc.is_available = true →
      (svc.insertResult = Except.error e →
        create_event svc title description st et email = Except.error e) ∧
      (svc.deleteResult = Except.error e →
        delete_event svc event_id = Except.ok false) := by
  intro svc e t d st et em id hav
  constructor
  · intro h
    simp [create_event, hav, h]
  · intro h
    simp [delete_event, hav, h]

theorem create_reraises_delete_swallows_witness :
    create_event svcHardFail "t" "d" "s" "e" none = Except.error ⟨"insert failed"⟩ ∧
    delete_event svcHardFail "evt2" = Except.ok false :=
  ⟨(create_reraises_delete_swallows svcHardFail ⟨"insert failed"⟩ "t" "d" "s" "e" none
      "evt2" rfl).1 rfl,
   (create_reraises_delete_swallows svcHardFail ⟨"delete failed"⟩ "t" "d" "s" "e" none
      "evt2" rfl).2 rfl⟩

theorem agentLoopGo_bound (model : List String → ModelOutput)
    (tools : String → String → String) :
    ∀ (fuel : Nat) (sp : List String) (used : Nat),
      (agentLoopGo model tools fuel sp used).1 ≤ used + fuel ∧
      ((∀ (sp2 : List String) (a : String), model sp2 ≠ ModelOutput.finalAnswer a) →
        (agentLoopGo model tools fuel sp used).2 =
          "Agent stopped due to iteration limit or time limit.") := by
  intro fuel
  induction fuel with
  | zero =>
    intro sp used
    exact ⟨Nat.le_refl used, fun _ => rfl⟩
  | succ n ih =>
    intro sp used
    simp only [agentLoopGo]
    cases hm : model sp with
    | finalAnswer a =>
      constructor
      · show used + 1 ≤ used + (n + 1)
        omega
      · intro hnever
        exact absurd hm (hnever sp a)
    | toolCall act inp =>
      constructor
      · show (agentLoopGo model tools n (sp ++ [tools act inp]) (used + 1)).1 ≤ used + (n + 1)
        have hb := (ih (sp ++ [tools act inp]) (used + 1)).1
        omega
      · intro hnever
        show (agentLoopGo model tools n (sp ++ [tools act inp]) (used + 1)).2 =
          "Agent stopped due to iteration limit or time limit."
        exact (ih (sp ++ [tools act inp]) (used + 1)).2 hnever

/-- C8: for every sequence of model outputs the executor loop configured
with `max_iterations=5` and `early_stopping_method="force"` uses at most
5 iterations, and when the model never emits a final answer it returns
the non-empty forced-stop string instead of hanging. -/
theorem agent_loop_terminates :
    ∀ (model : List String → ModelOutput) (tools : String → String → String),
      (agentLoop model tools).1 ≤ 5 ∧
      ((∀ (sp : List String) (a : String), model sp ≠ ModelOutput.finalAnswer a) →
        (agentLoop model tools).2 ≠ "") := by
  intro model tools
  constructor
  · have := (agentLoopGo_bound model tools 5 [] 0).1
    simpa [agentLoop] using this
  · intro hnever
    have h2 := (agentLoopGo_bound model tools 5 [] 0).2 hnever
    simp only [agentLoop, h2]
    decide

theorem agent_loop_terminates_witness :
    (agentLoop neverFinalModel constTools).1 ≤ 5 ∧
    (agentLoop neverFinalModel constTools).2 ≠ "" :=
  ⟨(agent_loop_terminates neverFinalModel constTools).1,
   (agent_loop_terminates neverFinalModel constTools).2
     (fun sp a h => ModelOutput.noConfusion h)⟩

/-- C9 counterexample: a `/chat` request that omits `session_id` obtains
a response whose `session_id` is null, not the string generated for the
new session by `process_message`. -/
theorem chat_session_id_not_returned :
    (chat_endpoint "ok" ⟨"book a slot", none, none⟩).session_id = none ∧
    (chat_endpoint "ok" ⟨"book a slot", none, none⟩).session_id ≠
      some (effective_session_id "1717000000.0" none) :=
  ⟨rfl, by simp [chat_endpoint]⟩

/-- C9 amended: the `/chat` endpoint echoes the request's `session_id`
field verbatim — a string when one was supplied, null when omitted — and
the identifier `process_message` generates for a missing or empty session
id never reaches the response. -/
theorem chat_endpoint_echoes_session_id :
    ∀ (resp : String) (msg : ChatMessage) (ts : String),
      chat_endpoint resp msg = ⟨resp, msg.session_id⟩ ∧
      effective_session_id ts none = "session_" ++ ts ∧
      effective_session_id ts (some "") = "session_" ++ ts :=
  fun resp msg ts => ⟨rfl, rfl, rfl⟩

/-- C10: when the provider is unavailable, `delete_event` returns `True`
for every event id without consulting any backend. -/
theorem delete_event_mock_mode :
    ∀ (svc : CalendarServiceState) (event_id : String),
      svc.is_available = false → delete_event svc event_id = Except.ok true := by
  intro svc id h
  simp [delete_event, h]

theorem delete_event_mock_mode_witness :
    delete_event svcDown "evt42" = Except.ok true :=
  delete_event_mock_mode svcDown "evt42" rfl

end BookIt
